import Mathlib

/-!
Verification of the Gemini Text-to-Speech app (src/App.tsx).

The development shallowly embeds the non-UI logic of the app:
the PCM-to-WAV framing step (`pcmToWavBlob`, whose implementation lives in
the absent `./utils/audio` module and is therefore modelled from the spec),
and the three event handlers `handleGenerateSpeech`, `handlePreviewVoice`
and `handleAnalyzeScript`, modelled as pure transition functions on the
component state.  External nondeterminism (the remote Gemini calls, the
base64 decode of the returned payload) is captured by an outcome parameter,
and the observable side effects of a handler run (remote requests issued,
object URLs created / revoked / scheduled for revocation, audio played)
are collected in an explicit effect record.
-/

namespace GeminiTTS

/-! ## Binary transcoder -/

/-- Little-endian encoding of a value into two bytes
(a DataView setUint16 write). -/
def le2 (m : Nat) : List Nat := [m % 256, m / 256 % 256]

/-- Little-endian encoding of a value into four bytes
(a DataView setUint32 write). -/
def le4 (m : Nat) : List Nat :=
  [m % 256, m / 256 % 256, m / 65536 % 256, m / 16777216 % 256]

/-- Byte of a buffer at an index (0 past the end). -/
def byteAt (l : List Nat) (i : Nat) : Nat := l.getD i 0

/-- Read a 16-bit little-endian field of a buffer at a byte offset. -/
def readLE2 (l : List Nat) (i : Nat) : Nat := byteAt l i + 256 * byteAt l (i + 1)

/-- Read a 32-bit little-endian field of a buffer at a byte offset. -/
def readLE4 (l : List Nat) (i : Nat) : Nat :=
  byteAt l i + 256 * byteAt l (i + 1) + 65536 * byteAt l (i + 2) +
    16777216 * byteAt l (i + 3)

/-- The format argument of `pcmToWavBlob` (§4.1 of the spec):
sample rate, channel count and bits per sample of the raw PCM payload. -/
structure WavFormat where
  sampleRate : Nat
  numChannels : Nat
  bitsPerSample : Nat
deriving DecidableEq

/-- byteRate = sampleRate * channelCount * bitsPerSample/8 (§4.1). -/
def byteRate (f : WavFormat) : Nat :=
  f.sampleRate * f.numChannels * (f.bitsPerSample / 8)

/-- blockAlign = channelCount * bitsPerSample/8 (§4.1). -/
def blockAlign (f : WavFormat) : Nat := f.numChannels * (f.bitsPerSample / 8)

/-- ASCII bytes of the chunk tag "RIFF". -/
def riffTag : List Nat := [82, 73, 70, 70]

/-- ASCII bytes of the chunk tag "WAVE". -/
def waveTag : List Nat := [87, 65, 86, 69]

/-- ASCII bytes of the chunk tag "fmt " (trailing space). -/
def fmtTag : List Nat := [102, 109, 116, 32]

/-- ASCII bytes of the chunk tag "data". -/
def dataTag : List Nat := [100, 97, 116, 97]

/-- Modelled from the spec: the implementation of `pcmToWavBlob` lives in
`./utils/audio`, which is absent from src/ (only its call sites at
src/App.tsx:95 and src/App.tsx:191 are present).  §4.1 specifies it as
wrapping raw little-endian PCM samples in the standard uncompressed
container (a 44-byte RIFF/WAVE header followed by the samples verbatim),
with sub-chunk size fields `samples.length` and `samples.length + 36`,
`byteRate = sampleRate * channelCount * bitsPerSample/8` and
`blockAlign = channelCount * bitsPerSample/8`; the size fields are 32-bit
little-endian words, so they store values reduced mod 2^32. -/
def pcmToWavBlob (samples : List Nat) (f : WavFormat) : List Nat :=
  riffTag ++ le4 (samples.length + 36) ++ waveTag ++
  fmtTag ++ le4 16 ++ le2 1 ++ le2 f.numChannels ++
  le4 f.sampleRate ++ le4 (byteRate f) ++ le2 (blockAlign f) ++
  le2 f.bitsPerSample ++ dataTag ++ le4 samples.length ++ samples

/-- A 32-bit little-endian field reads back to the value written,
provided the value fits in 32 bits. -/
theorem read_back_le4 (m : Nat) (h : m < 4294967296) :
    m % 256 + 256 * (m / 256 % 256) + 65536 * (m / 65536 % 256) +
      16777216 * (m / 16777216 % 256) = m := by omega

/-- A 16-bit little-endian field reads back to the value written,
provided the value fits in 16 bits. -/
theorem read_back_le2 (m : Nat) (h : m < 65536) :
    m % 256 + 256 * (m / 256 % 256) = m := by omega

/-- Cons-normal form of the WAV output: 44 header bytes then the samples. -/
theorem pcmToWavBlob_form (samples : List Nat) (f : WavFormat) :
    pcmToWavBlob samples f =
      82 :: 73 :: 70 :: 70 ::
      ((samples.length + 36) % 256) :: ((samples.length + 36) / 256 % 256) ::
      ((samples.length + 36) / 65536 % 256) ::
      ((samples.length + 36) / 16777216 % 256) ::
      87 :: 65 :: 86 :: 69 ::
      102 :: 109 :: 116 :: 32 ::
      16 :: 0 :: 0 :: 0 ::
      1 :: 0 ::
      (f.numChannels % 256) :: (f.numChannels / 256 % 256) ::
      (f.sampleRate % 256) :: (f.sampleRate / 256 % 256) ::
      (f.sampleRate / 65536 % 256) :: (f.sampleRate / 16777216 % 256) ::
      (byteRate f % 256) :: (byteRate f / 256 % 256) ::
      (byteRate f / 65536 % 256) :: (byteRate f / 16777216 % 256) ::
      (blockAlign f % 256) :: (blockAlign f / 256 % 256) ::
      (f.bitsPerSample % 256) :: (f.bitsPerSample / 256 % 256) ::
      100 :: 97 :: 116 :: 97 ::
      (samples.length % 256) :: (samples.length / 256 % 256) ::
      (samples.length / 65536 % 256) :: (samples.length / 16777216 % 256) ::
      samples := by
  simp [pcmToWavBlob, riffTag, waveTag, fmtTag, dataTag, le2, le4]

/-! ## Component state (the useState hooks of src/App.tsx) -/

/-- The mutable state of the `App` component: one field per `useState` hook
(src/App.tsx:44-55), omitting the pure-presentation `isVoiceListOpen`.
Object URLs are modelled as numeric handles; `speed` and `pitch` are exact
rationals, since the code only ever compares them for exact equality. -/
structure AppState where
  narratorScript : String
  isAnalyzing : Bool
  text : String
  styleInstructions : String
  selectedVoice : String
  speed : ℚ
  pitch : ℚ
  isLoading : Bool
  audioUrl : Option Nat
  error : Option String
  previewLoadingVoiceId : Option String
deriving DecidableEq

/-- The speechConfig object sent with a TTS request
(src/App.tsx:158-173 and src/App.tsx:85-87): voice name and the
optional rate / pitch overrides. -/
structure SpeechConfig where
  voiceName : String
  rate : Option ℚ
  pitch : Option ℚ
deriving DecidableEq

/-- A generateContent call to the TTS model (audio modality). -/
structure TtsCall where
  model : String
  promptText : String
  speechConfig : SpeechConfig
deriving DecidableEq

/-- A generateContent call to the text model (script analysis). -/
structure AnalyzeCall where
  model : String
  promptText : String
deriving DecidableEq

/-- Observable side effects of one handler run: remote requests issued,
WAV blobs built, object URLs created, URLs revoked immediately, URLs whose
revocation is scheduled for playback end (`audio.onended`), URLs played. -/
structure Effects where
  ttsCalls : List TtsCall
  analyzeCalls : List AnalyzeCall
  createdBlobs : List (List Nat)
  createdUrls : List Nat
  revokedUrls : List Nat
  revokeOnEnded : List Nat
  playedUrls : List Nat
deriving DecidableEq

/-- No side effects. -/
def noEffects : Effects :=
  { ttsCalls := [], analyzeCalls := [], createdBlobs := [], createdUrls := []
  , revokedUrls := [], revokeOnEnded := [], playedUrls := [] }

/-- Outcome of a TTS generateContent call together with the subsequent
payload extraction and base64 decode, as seen by the awaiting handler:
the call throws; the call resolves but
`candidates?.[0]?.content?.parts?.[0]?.inlineData?.data` is absent;
the payload is present but `decode` throws; or the payload decodes to a
raw PCM byte buffer. -/
inductive GenOutcome where
  | remoteError (msg : String)
  | noPayload
  | decodeError (msg : String)
  | decoded (pcm : List Nat)
deriving DecidableEq

/-- Outcome of an analysis generateContent call: it throws, or resolves
with a response text. -/
inductive AnalyzeOutcome where
  | remoteError (msg : String)
  | ok (respText : String)
deriving DecidableEq

/-- Strip leading and trailing whitespace characters of a character list. -/
def trimChars (l : List Char) : List Char :=
  ((l.dropWhile Char.isWhitespace).reverse.dropWhile Char.isWhitespace).reverse

/-- JS String.prototype.trim, the `.trim()` applied to user inputs in
src/App.tsx: strips leading and trailing whitespace. -/
def trim (s : String) : String := String.mk (trimChars s.data)

/-- The fixed WAV format used by both call sites:
24000 Hz, 1 channel, 16 bits per sample (src/App.tsx:95,192-194). -/
def wavFmt : WavFormat := { sampleRate := 24000, numChannels := 1, bitsPerSample := 16 }

/-- PREVIEW_TEXT (src/App.tsx:41). -/
def PREVIEW_TEXT : String := "Hello, this is a preview of my voice."

/-! ## handleGenerateSpeech (src/App.tsx:141-206) -/

/-- The fullPrompt computation (src/App.tsx:152-154): prepend the trimmed
style instructions and a blank line when they are non-empty. -/
def fullPrompt (styleInstructions trimmedText : String) : String :=
  if trim styleInstructions = "" then trimmedText
  else trim styleInstructions ++ "\n\n" ++ trimmedText

/-- The dynamically built speechConfig (src/App.tsx:157-173): rate is set
only when speed differs from 1.0, pitch only when it differs from 0.0. -/
def genSpeechConfig (st : AppState) : SpeechConfig :=
  { voiceName := st.selectedVoice
  , rate := if st.speed = 1 then none else some st.speed
  , pitch := if st.pitch = 0 then none else some st.pitch }

/-- The state writes performed before the remote call is dispatched
(src/App.tsx:148-150): clear the error, clear the displayed audio URL,
set the loading flag. -/
def generatePreDispatch (st : AppState) : AppState :=
  { st with error := none, audioUrl := none, isLoading := true }

/-- handleGenerateSpeech (src/App.tsx:141-206) as a transition function.
`outcome` resolves the awaited remote call (and payload decode), and
`freshUrl` is the handle `URL.createObjectURL` would return on success. -/
def handleGenerateSpeech (st : AppState) (outcome : GenOutcome) (freshUrl : Nat) :
    AppState × Effects :=
  let trimmedText := trim st.text
  if trimmedText = "" then
    ({ st with error := some "Please enter some text to generate speech." }, noEffects)
  else
    let st1 := generatePreDispatch st
    let req : TtsCall :=
      { model := "gemini-2.5-flash-preview-tts"
      , promptText := fullPrompt st.styleInstructions trimmedText
      , speechConfig := genSpeechConfig st }
    let eff : Effects := { noEffects with ttsCalls := [req] }
    match outcome with
    | .remoteError msg =>
        ({ st1 with error := some ("An error occurred: " ++ msg), isLoading := false }, eff)
    | .noPayload =>
        ({ st1 with
            error := some ("An error occurred: " ++ "No audio data received from API."),
            isLoading := false }, eff)
    | .decodeError msg =>
        ({ st1 with error := some ("An error occurred: " ++ msg), isLoading := false }, eff)
    | .decoded pcm =>
        ({ st1 with audioUrl := some freshUrl, isLoading := false },
         { eff with createdBlobs := [pcmToWavBlob pcm wavFmt], createdUrls := [freshUrl] })

/-- A click of the Generate Speech button (src/App.tsx:362-365): the button
carries `disabled={isLoading}`, so while a generate operation is in flight
the click fires no handler and changes nothing. -/
def clickGenerate (st : AppState) (outcome : GenOutcome) (freshUrl : Nat) :
    AppState × Effects :=
  if st.isLoading then (st, noEffects) else handleGenerateSpeech st outcome freshUrl

/-! ## handlePreviewVoice (src/App.tsx:75-106) -/

/-- handlePreviewVoice as a transition function.  The busy guard is the
in-function check `if (previewLoadingVoiceId) return` (src/App.tsx:76).
On success the produced URL is played immediately and its revocation is
registered on the `onended` callback (src/App.tsx:96-99). -/
def handlePreviewVoice (st : AppState) (voiceId : String) (outcome : GenOutcome)
    (freshUrl : Nat) : AppState × Effects :=
  if st.previewLoadingVoiceId.isSome then (st, noEffects)
  else
    let st1 : AppState := { st with previewLoadingVoiceId := some voiceId, error := none }
    let req : TtsCall :=
      { model := "gemini-2.5-flash-preview-tts"
      , promptText := PREVIEW_TEXT
      , speechConfig := { voiceName := voiceId, rate := none, pitch := none } }
    let eff : Effects := { noEffects with ttsCalls := [req] }
    match outcome with
    | .remoteError msg =>
        ({ st1 with
            error := some ("Preview failed: " ++ msg),
            previewLoadingVoiceId := none }, eff)
    | .noPayload =>
        ({ st1 with
            error := some ("Preview failed: " ++ "No audio data received for preview."),
            previewLoadingVoiceId := none }, eff)
    | .decodeError msg =>
        ({ st1 with
            error := some ("Preview failed: " ++ msg),
            previewLoadingVoiceId := none }, eff)
    | .decoded pcm =>
        ({ st1 with previewLoadingVoiceId := none },
         { eff with
            createdBlobs := [pcmToWavBlob pcm wavFmt],
            createdUrls := [freshUrl],
            playedUrls := [freshUrl],
            revokeOnEnded := [freshUrl] })

/-! ## handleAnalyzeScript (src/App.tsx:108-138) -/

/-- A single-quote character as a string, for embedding the prompt template
verbatim. -/
def sq : String := (Char.ofNat 39).toString

/-- The analysis prompt template (src/App.tsx:116-122), embedding the
narrator script verbatim. -/
def analyzePrompt (narratorScript : String) : String :=
  "Analyze the following narrator script and generate a concise " ++ sq ++
  "Style Instruction" ++ sq ++
  " for a text-to-speech model. The instruction should capture the script" ++ sq ++
  "s primary tone, emotion, and intended delivery style. The output should be a single imperative sentence, starting with a verb, similar to " ++ sq ++
  "Read aloud in a warm, welcoming tone:" ++ sq ++ " or " ++ sq ++
  "Speak with a sense of urgency and excitement:" ++ sq ++
  ". Do not add any other explanatory text, quotes, or preamble.\n\nHere is the script:\n---\n" ++
  narratorScript ++ "\n---\nStyle Instruction:"

/-- handleAnalyzeScript (src/App.tsx:108-138) as a transition function.
On success the trimmed response text overwrites the style instructions. -/
def handleAnalyzeScript (st : AppState) (outcome : AnalyzeOutcome) :
    AppState × Effects :=
  if trim st.narratorScript = "" then
    ({ st with error := some "Please paste a script to analyze." }, noEffects)
  else
    let st1 : AppState := { st with error := none, isAnalyzing := true }
    let eff : Effects :=
      { noEffects with analyzeCalls :=
          [{ model := "gemini-2.5-flash", promptText := analyzePrompt st.narratorScript }] }
    match outcome with
    | .remoteError msg =>
        ({ st1 with error := some ("Analysis failed: " ++ msg), isAnalyzing := false }, eff)
    | .ok respText =>
        ({ st1 with styleInstructions := trim respText, isAnalyzing := false }, eff)

/-! ## Shared helper lemmas and concrete states -/

/-- On every run of `handleGenerateSpeech` that passes validation, exactly
one TTS request is issued, with the assembled prompt and the dynamically
built speech configuration. -/
theorem generate_ttsCalls (st : AppState) (outcome : GenOutcome) (freshUrl : Nat)
    (h : trim st.text ≠ "") :
    (handleGenerateSpeech st outcome freshUrl).2.ttsCalls =
      [{ model := "gemini-2.5-flash-preview-tts",
         promptText := fullPrompt st.styleInstructions (trim st.text),
         speechConfig := genSpeechConfig st }] := by
  cases outcome <;> simp [handleGenerateSpeech, h]

/-- A concrete state for instantiating the theorems. -/
def demoState : AppState :=
  { narratorScript := "", isAnalyzing := false, text := "Hello world",
    styleInstructions := "", selectedVoice := "puck", speed := 1, pitch := 0,
    isLoading := false, audioUrl := none, error := none,
    previewLoadingVoiceId := none }

/-! ## The claims -/

/-- Claim C1: for every samples buffer of length N bytes and every format,
`pcmToWavBlob` returns a buffer of total length exactly 44 + N whose header
size fields (32-bit little-endian words at offsets 40 and 4) equal N and
N + 36, whose byteRate field (offset 28) equals
sampleRate * channelCount * bitsPerSample/8, and whose blockAlign field
(offset 32) equals channelCount * bitsPerSample/8 — provided each value
fits its field width. -/
theorem wav_header_correct (samples : List Nat) (f : WavFormat)
    (hN : samples.length + 36 < 4294967296)
    (hBR : byteRate f < 4294967296)
    (hBA : blockAlign f < 65536) :
    (pcmToWavBlob samples f).length = 44 + samples.length ∧
    readLE4 (pcmToWavBlob samples f) 40 = samples.length ∧
    readLE4 (pcmToWavBlob samples f) 4 = samples.length + 36 ∧
    readLE4 (pcmToWavBlob samples f) 28 = byteRate f ∧
    readLE2 (pcmToWavBlob samples f) 32 = blockAlign f := by
  refine ⟨?_, ?_, ?_, ?_, ?_⟩
  · simp [pcmToWavBlob, riffTag, waveTag, fmtTag, dataTag, le2, le4]
    omega
  · rw [readLE4, pcmToWavBlob_form]
    simp [byteAt]
    omega
  · rw [readLE4, pcmToWavBlob_form]
    simp [byteAt]
    omega
  · rw [readLE4, pcmToWavBlob_form]
    simp [byteAt]
    omega
  · rw [readLE2, pcmToWavBlob_form]
    simp [byteAt]
    omega

/-- Claim C1 witness: the header contract evaluated on a 4-byte buffer in
the app's fixed 24000 Hz / 1 channel / 16 bit format. -/
theorem wav_header_correct_witness :
    (([10, 20, 30, 40] : List Nat).length + 36 < 4294967296 ∧
     byteRate wavFmt < 4294967296 ∧ blockAlign wavFmt < 65536) ∧
    ((pcmToWavBlob [10, 20, 30, 40] wavFmt).length = 44 + ([10, 20, 30, 40] : List Nat).length ∧
     readLE4 (pcmToWavBlob [10, 20, 30, 40] wavFmt) 40 = ([10, 20, 30, 40] : List Nat).length ∧
     readLE4 (pcmToWavBlob [10, 20, 30, 40] wavFmt) 4 = ([10, 20, 30, 40] : List Nat).length + 36 ∧
     readLE4 (pcmToWavBlob [10, 20, 30, 40] wavFmt) 28 = byteRate wavFmt ∧
     readLE2 (pcmToWavBlob [10, 20, 30, 40] wavFmt) 32 = blockAlign wavFmt) :=
  ⟨⟨by decide, by decide, by decide⟩,
   wav_header_correct [10, 20, 30, 40] wavFmt (by decide) (by decide) (by decide)⟩

/-- Claim C2: while a generate operation is dispatching (`isLoading` set),
a second generate invocation is rejected — the Generate button is disabled,
so the click fires no handler: no second remote call is issued and the
state is unchanged. -/
theorem busy_generate_rejected (st : AppState) (outcome : GenOutcome) (freshUrl : Nat)
    (h : st.isLoading = true) :
    clickGenerate st outcome freshUrl = (st, noEffects) := by
  simp [clickGenerate, h]

/-- Claim C2 witness: a concrete busy state is left untouched with no
effects. -/
theorem busy_generate_rejected_witness :
    ({ demoState with isLoading := true } : AppState).isLoading = true ∧
    clickGenerate { demoState with isLoading := true } (.remoteError "boom") 7 =
      ({ demoState with isLoading := true }, noEffects) :=
  ⟨rfl, busy_generate_rejected { demoState with isLoading := true } (.remoteError "boom") 7 rfl⟩

/-- Claim C3: the single TTS request issued by a validated generate run
carries a rate override iff the speed differs from 1.0 and a pitch
override iff the pitch differs from 0.0; when present the override equals
the input unchanged. -/
theorem overrides_present_iff (st : AppState) (outcome : GenOutcome) (freshUrl : Nat)
    (h : trim st.text ≠ "") :
    ∃ c : TtsCall,
      (handleGenerateSpeech st outcome freshUrl).2.ttsCalls = [c] ∧
      (c.speechConfig.rate.isSome ↔ st.speed ≠ 1) ∧
      (∀ r, c.speechConfig.rate = some r → r = st.speed) ∧
      (c.speechConfig.pitch.isSome ↔ st.pitch ≠ 0) ∧
      (∀ p, c.speechConfig.pitch = some p → p = st.pitch) := by
  refine ⟨_, generate_ttsCalls st outcome freshUrl h, ?_, ?_, ?_, ?_⟩
  · by_cases hs : st.speed = 1 <;> simp [genSpeechConfig, hs]
  · intro r hr
    by_cases hs : st.speed = 1 <;> simp [genSpeechConfig, hs] at hr
    exact hr.symm
  · by_cases hp : st.pitch = 0 <;> simp [genSpeechConfig, hp]
  · intro p hp2
    by_cases hp : st.pitch = 0 <;> simp [genSpeechConfig, hp] at hp2
    exact hp2.symm

/-- Claim C3 witness: the override policy evaluated at speed 3/2 and
pitch 0. -/
theorem overrides_present_iff_witness :
    trim ({ demoState with speed := 3 / 2 } : AppState).text ≠ "" ∧
    (∃ c : TtsCall,
      (handleGenerateSpeech { demoState with speed := 3 / 2 } (.decoded []) 0).2.ttsCalls = [c] ∧
      (c.speechConfig.rate.isSome ↔ ({ demoState with speed := 3 / 2 } : AppState).speed ≠ 1) ∧
      (∀ r, c.speechConfig.rate = some r → r = ({ demoState with speed := 3 / 2 } : AppState).speed) ∧
      (c.speechConfig.pitch.isSome ↔ ({ demoState with speed := 3 / 2 } : AppState).pitch ≠ 0) ∧
      (∀ p, c.speechConfig.pitch = some p → p = ({ demoState with speed := 3 / 2 } : AppState).pitch)) :=
  ⟨by decide, overrides_present_iff { demoState with speed := 3 / 2 } (.decoded []) 0 (by decide)⟩

/-- Claim C4: the prompt of the single TTS request issued by a validated
generate run equals the trimmed style instructions, a blank line, and the
trimmed body text when the trimmed style instructions are non-empty, and
the trimmed body text alone otherwise. -/
theorem prompt_assembly (st : AppState) (outcome : GenOutcome) (freshUrl : Nat)
    (h : trim st.text ≠ "") :
    ∃ c : TtsCall,
      (handleGenerateSpeech st outcome freshUrl).2.ttsCalls = [c] ∧
      c.promptText = (if trim st.styleInstructions = "" then trim st.text
                      else trim st.styleInstructions ++ "\n\n" ++ trim st.text) :=
  ⟨_, generate_ttsCalls st outcome freshUrl h, rfl⟩

/-- Claim C4 witness: style "Read warmly:" and body "Hi there" yield the
concatenated prompt. -/
theorem prompt_assembly_witness :
    trim ({ demoState with styleInstructions := "Read warmly:", text := "Hi there" } : AppState).text ≠ "" ∧
    (∃ c : TtsCall,
      (handleGenerateSpeech { demoState with styleInstructions := "Read warmly:", text := "Hi there" }
        (.decoded []) 0).2.ttsCalls = [c] ∧
      c.promptText =
        (if trim ({ demoState with styleInstructions := "Read warmly:", text := "Hi there" } : AppState).styleInstructions = ""
         then trim ({ demoState with styleInstructions := "Read warmly:", text := "Hi there" } : AppState).text
         else trim ({ demoState with styleInstructions := "Read warmly:", text := "Hi there" } : AppState).styleInstructions ++
              "\n\n" ++ trim ({ demoState with styleInstructions := "Read warmly:", text := "Hi there" } : AppState).text)) :=
  ⟨by decide,
   prompt_assembly { demoState with styleInstructions := "Read warmly:", text := "Hi there" }
     (.decoded []) 0 (by decide)⟩

/-- Claim C5: when the body text trims to empty, generate sets the
validation error message, issues no remote call, and leaves the busy flag
and the displayed audio URL unchanged. -/
theorem empty_text_rejected (st : AppState) (outcome : GenOutcome) (freshUrl : Nat)
    (h : trim st.text = "") :
    handleGenerateSpeech st outcome freshUrl =
      ({ st with error := some "Please enter some text to generate speech." }, noEffects) ∧
    (handleGenerateSpeech st outcome freshUrl).1.isLoading = st.isLoading ∧
    (handleGenerateSpeech st outcome freshUrl).1.audioUrl = st.audioUrl ∧
    (handleGenerateSpeech st outcome freshUrl).2.ttsCalls = [] := by
  refine ⟨?_, ?_, ?_, ?_⟩ <;> simp [handleGenerateSpeech, h, noEffects]

/-- Claim C5 witness: a whitespace-only body text is rejected with no
effects. -/
theorem empty_text_rejected_witness :
    trim ({ demoState with text := "   ", audioUrl := some 5 } : AppState).text = "" ∧
    handleGenerateSpeech { demoState with text := "   ", audioUrl := some 5 } .noPayload 0 =
      ({ { demoState with text := "   ", audioUrl := some 5 } with
          error := some "Please enter some text to generate speech." }, noEffects) :=
  ⟨by decide,
   (empty_text_rejected { demoState with text := "   ", audioUrl := some 5 } .noPayload 0 (by decide)).1⟩

/-- Claim C6 counterexample: at a concrete state displaying handle 0, a
successful generate displays the new handle 1 but revokes nothing — the
superseded handle's backing resource is not released, neither immediately
nor via a scheduled onended callback. -/
theorem generate_no_release_counterexample :
    ({ demoState with audioUrl := some 0 } : AppState).audioUrl = some 0 ∧
    (handleGenerateSpeech { demoState with audioUrl := some 0 } (.decoded [1, 2]) 1).1.audioUrl = some 1 ∧
    (handleGenerateSpeech { demoState with audioUrl := some 0 } (.decoded [1, 2]) 1).2.revokedUrls = [] ∧
    (handleGenerateSpeech { demoState with audioUrl := some 0 } (.decoded [1, 2]) 1).2.revokeOnEnded = [] := by
  decide

/-- Claim C6 amended: on every successful generate the displayed handle is
replaced by the new one, but the superseded handle's backing resource is
not released — the run revokes no URL and schedules no revocation. -/
theorem generate_replaces_without_release (st : AppState) (pcm : List Nat) (u : Nat)
    (h : trim st.text ≠ "") :
    (handleGenerateSpeech st (.decoded pcm) u).1.audioUrl = some u ∧
    (handleGenerateSpeech st (.decoded pcm) u).2.revokedUrls = [] ∧
    (handleGenerateSpeech st (.decoded pcm) u).2.revokeOnEnded = [] := by
  refine ⟨?_, ?_, ?_⟩ <;> simp [handleGenerateSpeech, h, noEffects]

/-- Claim C6 amended witness: a concrete successful generate replaces the
displayed handle and releases nothing. -/
theorem generate_replaces_without_release_witness :
    trim ({ demoState with audioUrl := some 3 } : AppState).text ≠ "" ∧
    ((handleGenerateSpeech { demoState with audioUrl := some 3 } (.decoded [9]) 4).1.audioUrl = some 4 ∧
     (handleGenerateSpeech { demoState with audioUrl := some 3 } (.decoded [9]) 4).2.revokedUrls = [] ∧
     (handleGenerateSpeech { demoState with audioUrl := some 3 } (.decoded [9]) 4).2.revokeOnEnded = []) :=
  ⟨by decide,
   generate_replaces_without_release { demoState with audioUrl := some 3 } [9] 4 (by decide)⟩

/-- Claim C7: when the preview remote call fails, the preview busy flag is
cleared after the run settles, no blob or URL is produced, nothing is
played, and the error is surfaced with the prefix "Preview failed:". -/
theorem preview_remote_error_cleanup (st : AppState) (voiceId msg : String) (u : Nat)
    (h : st.previewLoadingVoiceId = none) :
    (handlePreviewVoice st voiceId (.remoteError msg) u).1.previewLoadingVoiceId = none ∧
    (handlePreviewVoice st voiceId (.remoteError msg) u).2.createdBlobs = [] ∧
    (handlePreviewVoice st voiceId (.remoteError msg) u).2.createdUrls = [] ∧
    (handlePreviewVoice st voiceId (.remoteError msg) u).2.playedUrls = [] ∧
    (handlePreviewVoice st voiceId (.remoteError msg) u).1.error =
      some ("Preview failed: " ++ msg) := by
  refine ⟨?_, ?_, ?_, ?_, ?_⟩ <;> simp [handlePreviewVoice, h, noEffects]

/-- Claim C7 witness: a concrete failed preview clears the flag, produces
no asset and surfaces the prefixed error. -/
theorem preview_remote_error_cleanup_witness :
    (demoState : AppState).previewLoadingVoiceId = none ∧
    ((handlePreviewVoice demoState "puck" (.remoteError "quota") 2).1.previewLoadingVoiceId = none ∧
     (handlePreviewVoice demoState "puck" (.remoteError "quota") 2).2.createdBlobs = [] ∧
     (handlePreviewVoice demoState "puck" (.remoteError "quota") 2).2.createdUrls = [] ∧
     (handlePreviewVoice demoState "puck" (.remoteError "quota") 2).2.playedUrls = [] ∧
     (handlePreviewVoice demoState "puck" (.remoteError "quota") 2).1.error =
       some ("Preview failed: " ++ "quota")) :=
  ⟨rfl, preview_remote_error_cleanup demoState "puck" "quota" 2 rfl⟩

/-- Claim C8: when the narrator script trims to empty, analyzeScript sets
the validation error synchronously, issues no remote call, and leaves the
analyze busy flag and the style instructions unchanged. -/
theorem analyze_empty_rejected (st : AppState) (outcome : AnalyzeOutcome)
    (h : trim st.narratorScript = "") :
    handleAnalyzeScript st outcome =
      ({ st with error := some "Please paste a script to analyze." }, noEffects) ∧
    (handleAnalyzeScript st outcome).2.analyzeCalls = [] ∧
    (handleAnalyzeScript st outcome).1.isAnalyzing = st.isAnalyzing ∧
    (handleAnalyzeScript st outcome).1.styleInstructions = st.styleInstructions := by
  refine ⟨?_, ?_, ?_, ?_⟩ <;> simp [handleAnalyzeScript, h, noEffects]

/-- Claim C8 witness: an empty narrator script is rejected with no remote
call and untouched analyze state. -/
theorem analyze_empty_rejected_witness :
    trim (demoState : AppState).narratorScript = "" ∧
    handleAnalyzeScript demoState (.ok "Speak slowly:") =
      ({ demoState with error := some "Please paste a script to analyze." }, noEffects) :=
  ⟨by decide, (analyze_empty_rejected demoState (.ok "Speak slowly:") (by decide)).1⟩

/-- Claim C9: a validated generate clears the displayed audio URL before
dispatching, and on a remote failure, a missing payload, or a decode
failure the prior result is not restored, so no audio URL is displayed
after a failed generate. -/
theorem failed_generate_no_result (st : AppState) (u : Nat) (msg : String)
    (h : trim st.text ≠ "") :
    (generatePreDispatch st).audioUrl = none ∧
    (handleGenerateSpeech st (.remoteError msg) u).1.audioUrl = none ∧
    (handleGenerateSpeech st .noPayload u).1.audioUrl = none ∧
    (handleGenerateSpeech st (.decodeError msg) u).1.audioUrl = none := by
  refine ⟨rfl, ?_, ?_, ?_⟩ <;> simp [handleGenerateSpeech, generatePreDispatch, h]

/-- Claim C9 witness: a concrete failed generate leaves no displayed
result even though one was displayed before. -/
theorem failed_generate_no_result_witness :
    trim ({ demoState with audioUrl := some 8 } : AppState).text ≠ "" ∧
    ((generatePreDispatch { demoState with audioUrl := some 8 }).audioUrl = none ∧
     (handleGenerateSpeech { demoState with audioUrl := some 8 } (.remoteError "network") 1).1.audioUrl = none ∧
     (handleGenerateSpeech { demoState with audioUrl := some 8 } .noPayload 1).1.audioUrl = none ∧
     (handleGenerateSpeech { demoState with audioUrl := some 8 } (.decodeError "network") 1).1.audioUrl = none) :=
  ⟨by decide,
   failed_generate_no_result { demoState with audioUrl := some 8 } 1 "network" (by decide)⟩

/-- Claim C10: previewVoice and analyzeScript, whatever their outcome,
leave the displayed audio URL, the body text, the selected voice, the
speed and the pitch unchanged; previewVoice additionally preserves the
style instructions, the narrator script and the other busy flags, and
analyzeScript preserves the narrator script, the generate busy flag and
the preview busy flag. -/
theorem preview_analyze_frame (st : AppState) (voiceId : String) (go : GenOutcome)
    (ao : AnalyzeOutcome) (u : Nat) :
    ((handlePreviewVoice st voiceId go u).1.audioUrl = st.audioUrl ∧
     (handlePreviewVoice st voiceId go u).1.text = st.text ∧
     (handlePreviewVoice st voiceId go u).1.selectedVoice = st.selectedVoice ∧
     (handlePreviewVoice st voiceId go u).1.speed = st.speed ∧
     (handlePreviewVoice st voiceId go u).1.pitch = st.pitch ∧
     (handlePreviewVoice st voiceId go u).1.styleInstructions = st.styleInstructions ∧
     (handlePreviewVoice st voiceId go u).1.narratorScript = st.narratorScript ∧
     (handlePreviewVoice st voiceId go u).1.isLoading = st.isLoading ∧
     (handlePreviewVoice st voiceId go u).1.isAnalyzing = st.isAnalyzing) ∧
    ((handleAnalyzeScript st ao).1.audioUrl = st.audioUrl ∧
     (handleAnalyzeScript st ao).1.text = st.text ∧
     (handleAnalyzeScript st ao).1.selectedVoice = st.selectedVoice ∧
     (handleAnalyzeScript st ao).1.speed = st.speed ∧
     (handleAnalyzeScript st ao).1.pitch = st.pitch ∧
     (handleAnalyzeScript st ao).1.narratorScript = st.narratorScript ∧
     (handleAnalyzeScript st ao).1.isLoading = st.isLoading ∧
     (handleAnalyzeScript st ao).1.previewLoadingVoiceId = st.previewLoadingVoiceId) := by
  constructor
  · by_cases hb : st.previewLoadingVoiceId.isSome <;>
      cases go <;> simp [handlePreviewVoice, hb]
  · by_cases hb : trim st.narratorScript = "" <;>
      cases ao <;> simp [handleAnalyzeScript, hb]

end GeminiTTS
